import Mathlib

/-!
Verification of the TrendingIssueResolutionSys decision pipeline.

Shallow embedding of the Python sources:
  * `trending_issue_resolver/sub_agents/human_intervention/agent.py`
    (`HumanInterventionAgent._should_escalate`, `_get_recommended_team`,
    `_get_response_time`)
  * `enhanced_standalone.py` (`HumanInterventionEvaluator.evaluate`)
  * `trending_issue_resolver/sub_agents/resolution_generator/agent.py`
    (`ResolutionGeneratorAgent.process`, resolution construction)
  * `trending_issue_resolver/sub_agents/trend_summarizer/agent.py`
    (the `primary_issue` record placed in the run-state summary)
  * `trending_issue_resolver/tools/datastore_tool.py`
    (`DatastoreTool.search_knowledge_base`)
  * `trending_issue_resolver/sub_agents/knowledge_retrieval/agent.py`
    (the `kb_hits` wrapper around the search result)
  * `trending_issue_resolver/tools/bigquery_tool.py`
    (`BigQueryTool.get_historical_context`, SQL semantics)
  * `trending_issue_resolver/sub_agents/response_memory/agent.py`
    (`ResponseMemoryAgent._check_consistency`)

Machine integers are `Nat`, SQL floats are modelled as exact rationals,
Python dictionary lookups with defaults are modelled by `Option` fields or
structure-field defaults, and Python exceptions by `Except String`.
-/

/-- `containsList needle hay` decides whether `needle` occurs as a
contiguous run inside `hay` (Python `needle in hay` on strings). -/
def containsList (needle : List Char) : List Char → Bool
  | [] => needle.isEmpty
  | c :: rest => needle.isPrefixOf (c :: rest) || containsList needle rest

/-- Python `s.lower()` viewed as a character sequence
(`String.toLower` itself is defined by well-founded recursion on
positions, which the kernel cannot evaluate, so we lower characterwise). -/
def lowerChars (s : String) : List Char := s.toList.map Char.toLower

/-- Case-insensitive substring test: Python `needle in hay.lower()` for an
already lowercase `needle`. -/
def containsSub (needle : String) (hay : String) : Bool :=
  containsList needle.toList (lowerChars hay)

/-- A Python value that is either an int or a list of strings.  The
`kb_articles_used` entry of a resolution dict is an int (`len(articles)`)
in `enhanced_standalone.py` but a list of article ids in
`ResolutionGeneratorAgent.process`. -/
inductive PyVal where
  | int : Nat → PyVal
  | list : List String → PyVal
  deriving DecidableEq

/-- Python `v == 0`: an int compares by value, a list is never equal to an
int (so `[] == 0` is `False`). -/
def pyEqZero : PyVal → Bool
  | .int n => n == 0
  | .list _ => false

/-- The Python exception text raised by `list < int`. -/
def pyTypeErrorMsg : String :=
  "TypeError: comparison not supported between list and int"

/-- Python `v < 2`: defined for an int, raises `TypeError` for a list. -/
def pyLtTwo : PyVal → Except String Bool
  | .int n => .ok (decide (n < 2))
  | .list _ => .error pyTypeErrorMsg

deriving instance DecidableEq for Except

/-- The `issue_summary` dict as read by `_should_escalate`:
`issue_summary.get("issue_type")` (may be absent, hence `Option`) and
`issue_summary.get("count", 0)`. -/
structure IssueSummary where
  issue_type : Option String
  count : Nat
  deriving DecidableEq

/-- The resolution dict, covering the keys written by
`ResolutionGeneratorAgent.process` / `enhanced_standalone.generate_resolution`
and read by the scorers and the consistency checker.  Field defaults mirror
the dict-lookup defaults (`.get(key, "")` / `.get("kb_articles_used", 0)`). -/
structure Resolution where
  issue_type : String := ""
  product_area : String := ""
  root_cause : String := ""
  steps : String := ""
  verification : String := ""
  prevention : String := ""
  communication_template : String := ""
  kb_articles_used : PyVal := .int 0
  generated_at : String := ""
  resolution_text : String := ""
  consistency_changes : Option String := none
  deriving DecidableEq

/-- The escalation decision dict returned by `_should_escalate` and
`HumanInterventionEvaluator.evaluate`. -/
structure Decision where
  should_escalate : Bool
  escalation_score : Nat
  escalation_level : String
  reasons : List String
  recommended_team : String
  estimated_response_time : String
  deriving DecidableEq

/-- `critical_types = ["database", "authentication", "payment"]`. -/
def criticalTypes : List String := ["database", "authentication", "payment"]

/-- `issue_summary.get("issue_type") in critical_types`; a missing key
(`None`) is not in the list. -/
def isCriticalType : Option String → Bool
  | some t => criticalTypes.contains t
  | none => false

/-- `team_mapping` from `_get_recommended_team` / `evaluate`. -/
def teamMapping : List (String × String) :=
  [("authentication", "identity_team"),
   ("payment", "billing_team"),
   ("database", "infrastructure_team"),
   ("api", "platform_team"),
   ("notification", "communication_team")]

/-- `team_mapping.get(issue_summary.get("issue_type"), "incident_response_team")`. -/
def getRecommendedTeam (i : IssueSummary) : String :=
  match i.issue_type with
  | some t => (teamMapping.lookup t).getD "incident_response_team"
  | none => "incident_response_team"

/-- `response_times` from `_get_response_time` / `evaluate`. -/
def responseTimes : List (String × String) :=
  [("urgent", "15 minutes"), ("high", "30 minutes"), ("normal", "1 hour")]

/-- `response_times.get(escalation_level, "1 hour")`. -/
def getResponseTime (level : String) : String :=
  (responseTimes.lookup level).getD "1 hour"

/-- Scoring state: the running `(escalation_score, escalation_reasons)`. -/
abbrev ScoreState := Nat × List String

/-- Rule: `count > 100` adds 3, else `count > 50` adds 2. -/
def applyImpact (count : Nat) (st : ScoreState) : ScoreState :=
  if 100 < count then (st.1 + 3, st.2 ++ ["High impact: >100 users affected"])
  else if 50 < count then (st.1 + 2, st.2 ++ ["Medium-high impact: >50 users affected"])
  else st

/-- Rule: a critical `issue_type` adds 2, with an f-string reason. -/
def applyCritical (it : Option String) (st : ScoreState) : ScoreState :=
  match it with
  | some t =>
      if criticalTypes.contains t then
        (st.1 + 2, st.2 ++ ["Critical service affected: " ++ t])
      else st
  | none => st

/-- Rule (agent scorer only): `len(escalation_reasons) > 1` at this point
adds 2 with reason "Multiple critical systems affected". -/
def applyCascade (st : ScoreState) : ScoreState :=
  if 1 < st.2.length then (st.1 + 2, st.2 ++ ["Multiple critical systems affected"])
  else st

/-- Rule: `kb_articles_used == 0` adds 2; elif `kb_articles_used < 2` adds 1.
The elif comparison raises `TypeError` when the value is a list. -/
def applyRemedy (kb : PyVal) (st : ScoreState) : Except String ScoreState :=
  if pyEqZero kb then .ok (st.1 + 2, st.2 ++ ["No knowledge base articles found"])
  else
    match pyLtTwo kb with
    | .error e => .error e
    | .ok true => .ok (st.1 + 1, st.2 ++ ["Limited knowledge base coverage"])
    | .ok false => .ok st

/-- Rule (agent scorer only): `"unknown" in str(resolution.get("resolution_text", "")).lower()`
adds 3. -/
def applyUnknown (text : String) (st : ScoreState) : ScoreState :=
  if containsSub "unknown" text then
    (st.1 + 3, st.2 ++ ["Unknown or novel issue pattern"])
  else st

/-- The final decision block shared verbatim by both scorers:
`should_escalate = score >= 4`, level thresholds 6 and 4, team and
response-time lookups. -/
def mkDecision (i : IssueSummary) (score : Nat) (reasons : List String) : Decision :=
  let level := if 6 ≤ score then "urgent" else if 4 ≤ score then "high" else "normal"
  { should_escalate := decide (4 ≤ score)
    escalation_score := score
    escalation_level := level
    reasons := reasons
    recommended_team := getRecommendedTeam i
    estimated_response_time := getResponseTime level }

/-- `HumanInterventionAgent._should_escalate`: impact, criticality, cascade,
remedy confidence, unknown-pattern rules in source order, then the decision.
A `TypeError` in the remedy rule aborts the whole call. -/
def shouldEscalate (i : IssueSummary) (r : Resolution) : Except String Decision :=
  match applyRemedy r.kb_articles_used
      (applyCascade (applyCritical i.issue_type (applyImpact i.count (0, [])))) with
  | .error e => .error e
  | .ok st4 =>
      .ok (mkDecision i (applyUnknown r.resolution_text st4).1
        (applyUnknown r.resolution_text st4).2)

/-- `HumanInterventionEvaluator.evaluate` from `enhanced_standalone.py`:
identical to the agent scorer but without the cascade and unknown-pattern
rules. -/
def evaluate (i : IssueSummary) (r : Resolution) : Except String Decision :=
  match applyRemedy r.kb_articles_used
      (applyCritical i.issue_type (applyImpact i.count (0, []))) with
  | .error e => .error e
  | .ok st3 => .ok (mkDecision i st3.1 st3.2)

/-! ### Knowledge base search (`DatastoreTool.search_knowledge_base`) -/

/-- A knowledge-base entity (active, already filtered by the Datastore query,
which also orders by `last_updated` descending). -/
structure Article where
  id : String
  title : String
  content : String
  success_rate : Nat
  last_updated : Nat
  deriving DecidableEq

/-- An article dict with the `relevance_score` key added. -/
structure RankedArticle extends Article where
  relevance_score : Nat
  deriving DecidableEq

/-- `score = sum(1 for kw in keywords if kw in content)` where
`content = entity.get("content", "").lower()`. -/
def keywordScore (keywords : List String) (content : String) : Nat :=
  keywords.countP (fun kw => containsList kw.toList (lowerChars content))

/-- One step of Python `list.sort(key=relevance_score, reverse=True)`
(stable): insert before the first strictly smaller key. -/
def insertDesc (x : RankedArticle) : List RankedArticle → List RankedArticle
  | [] => [x]
  | y :: ys =>
      if y.relevance_score ≤ x.relevance_score then x :: y :: ys
      else y :: insertDesc x ys

/-- Stable sort by `relevance_score` descending, as Python
`matches.sort(key=lambda x: x["relevance_score"], reverse=True)`. -/
def sortDesc : List RankedArticle → List RankedArticle
  | [] => []
  | x :: xs => insertDesc x (sortDesc xs)

/-- `DatastoreTool.search_knowledge_base`: score each fetched entity by
keyword overlap, keep only positive scores, stable-sort by score
descending, return the first 5.  `entities` stands for the result of the
Datastore query (active articles of the category, ordered by
`last_updated` descending). -/
def searchKnowledgeBase (keywords : List String) (entities : List Article) :
    List RankedArticle :=
  (sortDesc (entities.filterMap (fun e =>
    if 0 < keywordScore keywords e.content then
      some { toArticle := e, relevance_score := keywordScore keywords e.content }
    else none))).take 5

/-- The intended output ordering of the ranked list: relevance score
descending, ties broken by `last_updated` descending. -/
def rankOrder (a b : RankedArticle) : Prop :=
  b.relevance_score < a.relevance_score ∨
    (a.relevance_score = b.relevance_score ∧ b.last_updated ≤ a.last_updated)

instance : DecidableRel rankOrder := fun a b => by
  unfold rankOrder; infer_instance

/-- The `kb_hits` value built by `KnowledgeRetrievalAgent.process`:
`if not kb_articles: return {"kb_hits": None}`, otherwise the articles with
the LLM analysis and keywords. -/
structure KbHits where
  articles : List RankedArticle
  analysis : String
  keywords_used : List String
  deriving DecidableEq

/-- Lines 89-90 and 126-130 of the knowledge-retrieval agent: `None` when
the search returned no articles. -/
def kbHitsOf (kb_articles : List RankedArticle) (analysis : String)
    (keywords : List String) : Option KbHits :=
  if kb_articles.isEmpty then none
  else some ⟨kb_articles, analysis, keywords⟩

/-! ### Resolution generation (`ResolutionGeneratorAgent.process`) -/

/-- The `summary["primary_issue"]` dict built by
`TrendSummarizerAgent.process`: note its key is `"type"`, not
`"issue_type"`. -/
structure PrimaryIssue where
  type : String
  product_area : String
  severity : String
  count : Nat
  deriving DecidableEq

/-- A trending-issue row from `BigQueryTool.get_trending_issues`
(the fields the summarizer and scorer consume). -/
structure TrendingIssue where
  issue_type : String
  product_area : String
  severity : String
  count : Nat
  deriving DecidableEq

/-- `TrendSummarizerAgent.process` lines 116-121: the primary issue is
built from `trending_issues[0]`. -/
def summaryPrimary (t : TrendingIssue) : PrimaryIssue :=
  ⟨t.issue_type, t.product_area, t.severity, t.count⟩

/-- What `_should_escalate` actually sees of `summary["primary_issue"]`:
`.get("issue_type")` misses because the summarizer stored the key as
`"type"`, so the lookup yields `None`; `.get("count", 0)` finds the count. -/
def scorerInput (p : PrimaryIssue) : IssueSummary :=
  { issue_type := none, count := p.count }

/-- `ResolutionGeneratorAgent.process` lines 98-108: the resolution dict.
`sections` is the LLM text split on blank lines; `kb_articles_used` is the
LIST of article ids; there is no `"resolution_text"` key, so a later
`.get("resolution_text", "")` yields the empty string. -/
def generateResolution (primary : PrimaryIssue) (articles : List RankedArticle)
    (sections : List String) (generatedAt : String) : Resolution :=
  { issue_type := primary.type
    product_area := primary.product_area
    root_cause := sections.getD 0 ""
    steps := sections.getD 1 ""
    verification := sections.getD 2 ""
    prevention := sections.getD 3 ""
    communication_template := sections.getD 4 ""
    kb_articles_used := .list (articles.map (·.id))
    generated_at := generatedAt
    resolution_text := ""
    consistency_changes := none }

/-- `HumanInterventionAgent.process` wiring for one cycle: the summary is
`None` when no issues are trending (no score), otherwise the score of
`_should_escalate(summary["primary_issue"], resolution)`. -/
def humanInterventionScore (trending : List TrendingIssue) (r : Resolution) :
    Option (Except String Nat) :=
  match trending with
  | [] => none
  | t :: _ =>
      some ((shouldEscalate (scorerInput (summaryPrimary t)) r).map
        (·.escalation_score))

/-! ### Score decomposition helpers (spec-facing, used to state amended
claims; each mirrors one rule of the sequential scorer) -/

/-- Points from the affected-count tiers. -/
def impactPts (count : Nat) : Nat :=
  if 100 < count then 3 else if 50 < count then 2 else 0

/-- Points from the category-criticality rule. -/
def critPts (it : Option String) : Nat := if isCriticalType it then 2 else 0

/-- Points from the cascade rule: it fires exactly when both preceding
rules fired. -/
def cascadePts (i : IssueSummary) : Nat :=
  if 50 < i.count ∧ isCriticalType i.issue_type then 2 else 0

/-- Points from the remedy-confidence rule on an int count. -/
def remedyIntPts (n : Nat) : Nat := if n = 0 then 2 else if n < 2 then 1 else 0

/-- Points from the unknown-pattern rule. -/
def unknownPts (text : String) : Nat := if containsSub "unknown" text then 3 else 0

/-! ### Historical baseline (`BigQueryTool.get_historical_context`) -/

/-- One matching row of the `issues` table inside the lookback window:
its calendar day and its (possibly NULL) `resolution_time_minutes`. -/
structure HistEvent where
  day : Nat
  resolution_time_minutes : Option ℚ
  deriving DecidableEq

/-- The dict returned by `get_historical_context`.  SQL aggregates over an
empty `historical_data` CTE are NULL, which surfaces as Python `None`,
hence `Option`.  (`historical_resolutions` is not modelled: no claim
mentions it.) -/
structure HistoricalContext where
  avg_daily_incidents : Option ℚ
  max_daily_incidents : Option ℚ
  typical_resolution_time : Option ℚ
  deriving DecidableEq

/-- The distinct days of `GROUP BY DATE(timestamp)` — only days that have
at least one event appear. -/
def distinctDays (events : List HistEvent) : List Nat :=
  (events.map (·.day)).dedup

/-- `COUNT(*)` for one grouped day. -/
def dailyCount (events : List HistEvent) (d : Nat) : Nat :=
  events.countP (fun e => e.day == d)

/-- Per-day `AVG(resolution_time_minutes)`: SQL AVG ignores NULLs and is
NULL when no non-NULL value exists. -/
def dayResolutionAvg (events : List HistEvent) (d : Nat) : Option ℚ :=
  let ts := events.filterMap (fun e =>
    if e.day == d then e.resolution_time_minutes else none)
  match ts with
  | [] => none
  | _ => some (ts.sum / (ts.length : ℚ))

/-- `BigQueryTool.get_historical_context`: the outer SELECT averages the
per-day counts over the grouped days only, takes their max, and averages
the per-day resolution-time averages (NULL days dropped by SQL AVG). -/
def getHistoricalContext (events : List HistEvent) : HistoricalContext :=
  let days := distinctDays events
  let counts := days.map (fun d => (dailyCount events d : ℚ))
  let avg := if days.isEmpty then none
    else some (counts.sum / (days.length : ℚ))
  let maxd := match counts with
    | [] => none
    | c :: cs => some (cs.foldl max c)
  let dayAvgs := days.filterMap (dayResolutionAvg events)
  let typical := match dayAvgs with
    | [] => none
    | _ => some (dayAvgs.sum / (dayAvgs.length : ℚ))
  { avg_daily_incidents := avg
    max_daily_incidents := maxd
    typical_resolution_time := typical }

/-- Modelled from the spec: §4.2 requires `avg_daily_count` to be the
arithmetic mean over every day of the lookback window, days with zero
events contributing zero — i.e. total events divided by the window
length.  Stated for comparison with `getHistoricalContext`. -/
def specAvgDaily (lookbackDays : Nat) (events : List HistEvent) : ℚ :=
  (events.length : ℚ) / (lookbackDays : ℚ)

/-! ### Consistency checking (`ResponseMemoryAgent._check_consistency`) -/

/-- A prior response from `get_similar_responses` (only its existence and
embedded resolution matter to the checker). -/
structure PastResponse where
  resolution : Resolution
  deriving DecidableEq

/-- `update_response.text.split("\n\n")`. -/
def splitSections (s : String) : List String := s.splitOn "\n\n"

/-- `ResponseMemoryAgent._check_consistency` with the two external
text-generation results passed in: `analysisText` is the comparison
response, `updateText` the regenerated resolution body.  Empty history
returns the input unchanged; an amendment rewrites only the five body
sections and records `consistency_changes`. -/
def checkConsistency (current : Resolution) (past : List PastResponse)
    (analysisText : String) (updateText : String) : Resolution :=
  if past.isEmpty then current
  else if containsSub "suggested changes" analysisText then
    let sections := splitSections updateText
    if 5 ≤ sections.length then
      { current with
        root_cause := sections.getD 0 ""
        steps := sections.getD 1 ""
        verification := sections.getD 2 ""
        prevention := sections.getD 3 ""
        communication_template := sections.getD 4 ""
        consistency_changes := some analysisText }
    else current
  else current

/-- Reasons contributed by the affected-count tiers. -/
def impactReasons (count : Nat) : List String :=
  if 100 < count then ["High impact: >100 users affected"]
  else if 50 < count then ["Medium-high impact: >50 users affected"]
  else []

/-- Reasons contributed by the criticality rule. -/
def critReasons (it : Option String) : List String :=
  match it with
  | some t =>
      if criticalTypes.contains t then ["Critical service affected: " ++ t] else []
  | none => []

/-- Reasons contributed by the cascade rule: it fires exactly when the two
preceding rules both contributed a reason. -/
def cascadeReasons (i : IssueSummary) : List String :=
  if 50 < i.count ∧ isCriticalType i.issue_type then
    ["Multiple critical systems affected"]
  else []

/-- Reasons contributed by the remedy-confidence rule on an int count. -/
def remedyIntReasons (n : Nat) : List String :=
  if n = 0 then ["No knowledge base articles found"]
  else if n < 2 then ["Limited knowledge base coverage"]
  else []

/-- Reasons contributed by the unknown-pattern rule. -/
def unknownReasons (text : String) : List String :=
  if containsSub "unknown" text then ["Unknown or novel issue pattern"] else []

/-! ### Concrete inputs used by counterexamples and witnesses -/

/-- A trending database issue affecting 60 users. -/
def tDb : TrendingIssue := ⟨"database", "infrastructure", "high", 60⟩

/-- A trending api issue. -/
def tApi : TrendingIssue := ⟨"api", "platform", "high", 20⟩

/-- A trending payment issue. -/
def tPay : TrendingIssue := ⟨"payment", "billing", "high", 15⟩

/-- A resolution that used three knowledge-base articles (as an int count). -/
def rThree : Resolution := { kb_articles_used := .int 3 }

/-- An active knowledge-base article whose content matches no query
keyword used in the counterexamples. -/
def artNoMatch : Article := ⟨"kb1", "Router guide", "reset the router", 90, 100⟩

/-- Ten historical events on the same calendar day, none with a recorded
resolution time. -/
def ev10 : List HistEvent := List.replicate 10 ⟨0, none⟩

/-! ## Helper lemmas about the scorers -/

theorem mkDecision_score (i : IssueSummary) (s : Nat) (rs : List String) :
    (mkDecision i s rs).escalation_score = s := rfl

theorem mkDecision_reasons (i : IssueSummary) (s : Nat) (rs : List String) :
    (mkDecision i s rs).reasons = rs := rfl

theorem mkDecision_escalate (i : IssueSummary) (s : Nat) (rs : List String) :
    (mkDecision i s rs).should_escalate = true ↔ 4 ≤ s := by
  simp [mkDecision]

theorem mkDecision_level (i : IssueSummary) (s : Nat) (rs : List String) :
    (mkDecision i s rs).escalation_level =
      if 6 ≤ s then "urgent" else if 4 ≤ s then "high" else "normal" := rfl

theorem mkDecision_ert (i : IssueSummary) (s : Nat) (rs : List String) :
    (mkDecision i s rs).estimated_response_time =
      getResponseTime (mkDecision i s rs).escalation_level := rfl

/-- The threshold and SLA facts about the shared decision block. -/
theorem mkDecision_facts (i : IssueSummary) (s : Nat) (rs : List String) :
    ((mkDecision i s rs).should_escalate = true ↔ 4 ≤ s) ∧
    ((mkDecision i s rs).escalation_level = "urgent" ↔ 6 ≤ s) ∧
    ((mkDecision i s rs).escalation_level = "high" ↔ (4 ≤ s ∧ s < 6)) ∧
    ((mkDecision i s rs).escalation_level = "normal" ↔ s < 4) ∧
    ((mkDecision i s rs).escalation_level = "urgent" →
      (mkDecision i s rs).estimated_response_time = "15 minutes") ∧
    ((mkDecision i s rs).escalation_level = "high" →
      (mkDecision i s rs).estimated_response_time = "30 minutes") ∧
    ((mkDecision i s rs).escalation_level = "normal" →
      (mkDecision i s rs).estimated_response_time = "1 hour") := by
  have hlv : (mkDecision i s rs).escalation_level =
      if 6 ≤ s then "urgent" else if 4 ≤ s then "high" else "normal" := rfl
  have hert : (mkDecision i s rs).estimated_response_time =
      getResponseTime (if 6 ≤ s then "urgent" else if 4 ≤ s then "high" else "normal") := rfl
  by_cases h6 : 6 ≤ s
  · rw [hlv, hert, if_pos h6]
    refine ⟨mkDecision_escalate i s rs, by simp [h6], ?_, ?_, fun _ => rfl, ?_, ?_⟩
    · exact ⟨fun h => absurd h (by decide), fun h => by exfalso; omega⟩
    · exact ⟨fun h => absurd h (by decide), fun h => by exfalso; omega⟩
    · intro h; exact absurd h (by decide)
    · intro h; exact absurd h (by decide)
  · by_cases h4 : 4 ≤ s
    · rw [hlv, hert, if_neg h6, if_pos h4]
      refine ⟨mkDecision_escalate i s rs, ?_, ?_, ?_, ?_, fun _ => rfl, ?_⟩
      · exact ⟨fun h => absurd h (by decide), fun h => by exfalso; omega⟩
      · exact ⟨fun _ => ⟨h4, by omega⟩, fun _ => rfl⟩
      · exact ⟨fun h => absurd h (by decide), fun h => by exfalso; omega⟩
      · intro h; exact absurd h (by decide)
      · intro h; exact absurd h (by decide)
    · rw [hlv, hert, if_neg h6, if_neg h4]
      refine ⟨mkDecision_escalate i s rs, ?_, ?_, ?_, ?_, ?_, fun _ => rfl⟩
      · exact ⟨fun h => absurd h (by decide), fun h => by exfalso; omega⟩
      · exact ⟨fun h => absurd h (by decide), fun h => by exfalso; omega⟩
      · exact ⟨fun _ => by omega, fun _ => rfl⟩
      · intro h; exact absurd h (by decide)
      · intro h; exact absurd h (by decide)

/-- Every successful run of the agent scorer returns a decision built by the
shared final block. -/
theorem shouldEscalate_shape (i : IssueSummary) (r : Resolution) (d : Decision)
    (h : shouldEscalate i r = .ok d) : ∃ s rs, d = mkDecision i s rs := by
  unfold shouldEscalate at h
  rcases hr : applyRemedy r.kb_articles_used
      (applyCascade (applyCritical i.issue_type (applyImpact i.count (0, [])))) with e | st4
  · rw [hr] at h; cases h
  · rw [hr] at h
    simp only [Except.ok.injEq] at h
    exact ⟨_, _, h.symm⟩

/-- Every successful run of the standalone scorer returns a decision built by
the shared final block. -/
theorem evaluate_shape (i : IssueSummary) (r : Resolution) (d : Decision)
    (h : evaluate i r = .ok d) : ∃ s rs, d = mkDecision i s rs := by
  unfold evaluate at h
  rcases hr : applyRemedy r.kb_articles_used
      (applyCritical i.issue_type (applyImpact i.count (0, []))) with e | st3
  · rw [hr] at h; cases h
  · rw [hr] at h
    simp only [Except.ok.injEq] at h
    exact ⟨_, _, h.symm⟩

/-! ## C1 -/

/-- C1: the resolution generator stores `kb_articles_used` as the LIST of
article ids, but the scorer's remedy-confidence rule compares it with `0`
and `2`; in Python `[] == 0` is `False` and `list < int` raises
`TypeError`, so for EVERY resolution produced by the generator the scorer
raises instead of adding +2/+1.  This contradicts the claim (and spec rule
4), which the surrounding code and the standalone scorer show to be the
intent — a code bug. -/
theorem C1_generator_list_breaks_scorer (i : IssueSummary) (p : PrimaryIssue)
    (articles : List RankedArticle) (sections : List String) (t : String) :
    shouldEscalate i (generateResolution p articles sections t) =
      .error pyTypeErrorMsg := by
  unfold shouldEscalate generateResolution applyRemedy
  simp [pyEqZero, pyLtTwo]

/-! ## C2 -/

/-- C2 counterexample: on Scenario A (authentication, count 45,
articles_used 0) the standalone scorer does NOT return score 6 / urgent:
there is no volume-anomaly rule in the code, so the score is 4. -/
theorem C2_scenarioA_counterexample :
    ¬ ((evaluate ⟨some "authentication", 45⟩ { kb_articles_used := .int 0 }).map
        (fun d => (d.escalation_score, d.escalation_level, d.should_escalate)) =
      .ok (6, "urgent", true)) := by decide

/-- C2 amended: Scenario A yields score 4 (criticality +2, no articles +2),
level "high", should_escalate true, from both scorers; the baseline is not
consulted. -/
theorem C2_scenarioA_amended :
    (evaluate ⟨some "authentication", 45⟩ { kb_articles_used := .int 0 }).map
        (fun d => (d.escalation_score, d.escalation_level, d.should_escalate)) =
      .ok (4, "high", true) ∧
    (shouldEscalate ⟨some "authentication", 45⟩ { kb_articles_used := .int 0 }).map
        (fun d => (d.escalation_score, d.escalation_level, d.should_escalate)) =
      .ok (4, "high", true) := by decide

/-! ## C4 -/

/-- C4: every decision either scorer returns satisfies the documented
thresholds — escalate iff score ≥ 4, urgent iff score ≥ 6, high iff
4 ≤ score < 6, normal iff score < 4 — and the SLA lookup (urgent = 15
minutes, high = 30 minutes, normal = 1 hour). -/
theorem C4_decision_thresholds (i : IssueSummary) (r : Resolution) (d : Decision)
    (h : shouldEscalate i r = .ok d ∨ evaluate i r = .ok d) :
    (d.should_escalate = true ↔ 4 ≤ d.escalation_score) ∧
    (d.escalation_level = "urgent" ↔ 6 ≤ d.escalation_score) ∧
    (d.escalation_level = "high" ↔ (4 ≤ d.escalation_score ∧ d.escalation_score < 6)) ∧
    (d.escalation_level = "normal" ↔ d.escalation_score < 4) ∧
    (d.escalation_level = "urgent" → d.estimated_response_time = "15 minutes") ∧
    (d.escalation_level = "high" → d.estimated_response_time = "30 minutes") ∧
    (d.escalation_level = "normal" → d.estimated_response_time = "1 hour") := by
  have hshape : ∃ s rs, d = mkDecision i s rs := by
    rcases h with h | h
    · exact shouldEscalate_shape i r d h
    · exact evaluate_shape i r d h
  rcases hshape with ⟨s, rs, rfl⟩
  exact mkDecision_facts i s rs

/-- Witness for C4 at Scenario A's concrete input. -/
theorem C4_decision_thresholds_witness :
    ((Decision.mk true 4 "high"
        ["Critical service affected: authentication", "No knowledge base articles found"]
        "identity_team" "30 minutes").should_escalate = true ↔
      4 ≤ (Decision.mk true 4 "high"
        ["Critical service affected: authentication", "No knowledge base articles found"]
        "identity_team" "30 minutes").escalation_score) ∧
    ((Decision.mk true 4 "high"
        ["Critical service affected: authentication", "No knowledge base articles found"]
        "identity_team" "30 minutes").escalation_level = "urgent" ↔
      6 ≤ (Decision.mk true 4 "high"
        ["Critical service affected: authentication", "No knowledge base articles found"]
        "identity_team" "30 minutes").escalation_score) ∧
    ((Decision.mk true 4 "high"
        ["Critical service affected: authentication", "No knowledge base articles found"]
        "identity_team" "30 minutes").escalation_level = "high" ↔
      (4 ≤ (Decision.mk true 4 "high"
        ["Critical service affected: authentication", "No knowledge base articles found"]
        "identity_team" "30 minutes").escalation_score ∧
       (Decision.mk true 4 "high"
        ["Critical service affected: authentication", "No knowledge base articles found"]
        "identity_team" "30 minutes").escalation_score < 6)) ∧
    ((Decision.mk true 4 "high"
        ["Critical service affected: authentication", "No knowledge base articles found"]
        "identity_team" "30 minutes").escalation_level = "normal" ↔
      (Decision.mk true 4 "high"
        ["Critical service affected: authentication", "No knowledge base articles found"]
        "identity_team" "30 minutes").escalation_score < 4) ∧
    ((Decision.mk true 4 "high"
        ["Critical service affected: authentication", "No knowledge base articles found"]
        "identity_team" "30 minutes").escalation_level = "urgent" →
      (Decision.mk true 4 "high"
        ["Critical service affected: authentication", "No knowledge base articles found"]
        "identity_team" "30 minutes").estimated_response_time = "15 minutes") ∧
    ((Decision.mk true 4 "high"
        ["Critical service affected: authentication", "No knowledge base articles found"]
        "identity_team" "30 minutes").escalation_level = "high" →
      (Decision.mk true 4 "high"
        ["Critical service affected: authentication", "No knowledge base articles found"]
        "identity_team" "30 minutes").estimated_response_time = "30 minutes") ∧
    ((Decision.mk true 4 "high"
        ["Critical service affected: authentication", "No knowledge base articles found"]
        "identity_team" "30 minutes").escalation_level = "normal" →
      (Decision.mk true 4 "high"
        ["Critical service affected: authentication", "No knowledge base articles found"]
        "identity_team" "30 minutes").estimated_response_time = "1 hour") :=
  C4_decision_thresholds ⟨some "authentication", 45⟩ { kb_articles_used := .int 0 }
    (Decision.mk true 4 "high"
      ["Critical service affected: authentication", "No knowledge base articles found"]
      "identity_team" "30 minutes")
    (Or.inl (by decide))

/-! ## Score decomposition of the agent scorer -/

theorem applyImpact_eq (c : Nat) (st : ScoreState) :
    applyImpact c st = (st.1 + impactPts c, st.2 ++ impactReasons c) := by
  rcases st with ⟨a, b⟩
  unfold applyImpact impactPts impactReasons
  split_ifs <;> simp

theorem applyCritical_eq (it : Option String) (st : ScoreState) :
    applyCritical it st = (st.1 + critPts it, st.2 ++ critReasons it) := by
  rcases st with ⟨a, b⟩
  rcases it with _ | t
  · simp [applyCritical, critPts, critReasons, isCriticalType]
  · unfold applyCritical critPts critReasons isCriticalType
    by_cases h : t ∈ criticalTypes <;> simp [List.contains, h]

theorem applyRemedy_int (n : Nat) (st : ScoreState) :
    applyRemedy (.int n) st = .ok (st.1 + remedyIntPts n, st.2 ++ remedyIntReasons n) := by
  rcases st with ⟨a, b⟩
  unfold applyRemedy pyEqZero pyLtTwo remedyIntPts remedyIntReasons
  by_cases h0 : n = 0
  · simp [h0]
  · by_cases h2 : n < 2 <;> simp [h0, h2]

theorem applyUnknown_eq (t : String) (st : ScoreState) :
    applyUnknown t st = (st.1 + unknownPts t, st.2 ++ unknownReasons t) := by
  rcases st with ⟨a, b⟩
  unfold applyUnknown unknownPts unknownReasons
  by_cases h : containsSub "unknown" t <;> simp [h]

/-- The cascade condition `len(escalation_reasons) > 1` holds exactly when
both the impact tier and the criticality rule fired. -/
theorem cascade_cond (c : Nat) (it : Option String) :
    (1 < (impactReasons c ++ critReasons it).length) ↔
      (50 < c ∧ isCriticalType it = true) := by
  unfold impactReasons critReasons isCriticalType
  rcases it with _ | t
  · split_ifs <;> simp
  · by_cases h : t ∈ criticalTypes <;> split_ifs <;> simp [List.contains, h] <;> omega

theorem applyCascade_eq (i : IssueSummary) :
    applyCascade (impactPts i.count + critPts i.issue_type,
        impactReasons i.count ++ critReasons i.issue_type) =
      (impactPts i.count + critPts i.issue_type + cascadePts i,
        (impactReasons i.count ++ critReasons i.issue_type) ++ cascadeReasons i) := by
  unfold applyCascade cascadePts cascadeReasons
  by_cases hc : 50 < i.count ∧ isCriticalType i.issue_type
  · rw [if_pos ((cascade_cond i.count i.issue_type).2 hc), if_pos hc, if_pos hc]
  · rw [if_neg (fun h => hc ((cascade_cond i.count i.issue_type).1 h)),
      if_neg hc, if_neg hc]
    simp

/-- Full decomposition of the agent scorer on an int-valued
`kb_articles_used`: the score is the independent sum of the five rule
contributions (with the cascade contribution determined by the first two
rules), and the reasons are their concatenation. -/
theorem shouldEscalate_int (i : IssueSummary) (r : Resolution) (n : Nat)
    (hkb : r.kb_articles_used = .int n) :
    shouldEscalate i r = .ok (mkDecision i
      (impactPts i.count + critPts i.issue_type + cascadePts i + remedyIntPts n
        + unknownPts r.resolution_text)
      (impactReasons i.count ++ critReasons i.issue_type ++ cascadeReasons i
        ++ remedyIntReasons n ++ unknownReasons r.resolution_text)) := by
  unfold shouldEscalate
  rw [hkb]
  have h1 : applyImpact i.count (0, []) = (impactPts i.count, impactReasons i.count) := by
    simpa using applyImpact_eq i.count (0, [])
  rw [h1, applyCritical_eq, applyCascade_eq, applyRemedy_int]
  simp [applyUnknown_eq, Nat.add_assoc, List.append_assoc]

/-- A successful remedy rule implies the `kb_articles_used` value was an
int. -/
theorem applyRemedy_ok_int {kb : PyVal} {st st4 : ScoreState}
    (h : applyRemedy kb st = .ok st4) : ∃ n, kb = .int n := by
  rcases kb with n | ids
  · exact ⟨n, rfl⟩
  · unfold applyRemedy pyEqZero pyLtTwo at h
    simp at h

/-- A successful scorer run implies the `kb_articles_used` value was an
int. -/
theorem shouldEscalate_ok_int {i : IssueSummary} {r : Resolution} {d : Decision}
    (h : shouldEscalate i r = .ok d) : ∃ n, r.kb_articles_used = .int n := by
  unfold shouldEscalate at h
  rcases hr : applyRemedy r.kb_articles_used
      (applyCascade (applyCritical i.issue_type (applyImpact i.count (0, [])))) with e | st4
  · rw [hr] at h; cases h
  · exact applyRemedy_ok_int hr

theorem mcsa_notin_impact (c : Nat) :
    "Multiple critical systems affected" ∉ impactReasons c := by
  unfold impactReasons
  split_ifs <;> simp

theorem mcsa_notin_crit (it : Option String) :
    "Multiple critical systems affected" ∉ critReasons it := by
  unfold critReasons
  rcases it with _ | t
  · simp
  · by_cases h : t ∈ criticalTypes
    · have ht3 : t = "database" ∨ t = "authentication" ∨ t = "payment" := by
        simpa [criticalTypes] using h
      rcases ht3 with rfl | rfl | rfl <;> simp [List.contains]
    · simp [List.contains, h]

theorem mcsa_notin_remedy (n : Nat) :
    "Multiple critical systems affected" ∉ remedyIntReasons n := by
  unfold remedyIntReasons
  split_ifs <;> simp

theorem mcsa_notin_unknown (t : String) :
    "Multiple critical systems affected" ∉ unknownReasons t := by
  unfold unknownReasons
  split_ifs <;> simp

theorem mcsa_mem_cascade (i : IssueSummary) :
    "Multiple critical systems affected" ∈ cascadeReasons i ↔
      (50 < i.count ∧ isCriticalType i.issue_type = true) := by
  unfold cascadeReasons
  by_cases hc : 50 < i.count ∧ isCriticalType i.issue_type <;> simp [hc]

/-- Where the cascade reason can appear in the full reason list. -/
theorem mcsa_mem_reasons (i : IssueSummary) (n : Nat) (t : String) :
    "Multiple critical systems affected" ∈
        (impactReasons i.count ++ critReasons i.issue_type ++ cascadeReasons i
          ++ remedyIntReasons n ++ unknownReasons t) ↔
      (50 < i.count ∧ isCriticalType i.issue_type = true) := by
  have h1 := mcsa_notin_impact i.count
  have h2 := mcsa_notin_crit i.issue_type
  have h4 := mcsa_notin_remedy n
  have h5 := mcsa_notin_unknown t
  simp [List.mem_append, h1, h2, h4, h5, mcsa_mem_cascade i]

/-! ## C3 -/

/-- C3 counterexample: a cycle with three distinct trending categories
produces exactly the same escalation score (2) as the same cycle with a
single trending category — the claimed +2 increment for more than 2
concurrent categories does not exist in the scorer; the only multi-system
rule in the scorer is the cascade rule, which depends on the other rules,
not on the trending list. -/
theorem C3_multicategory_counterexample :
    humanInterventionScore [tDb, tApi, tPay] rThree = some (.ok 2) ∧
    humanInterventionScore [tDb] rThree = some (.ok 2) ∧
    ¬ humanInterventionScore [tDb, tApi, tPay] rThree = some (.ok (2 + 2)) := by
  decide

/-- C3 amended: the cycle-level escalation score depends only on the
primary (first) trending issue, never on how many categories are trending;
and the +2 "Multiple critical systems affected" bonus of the scorer is
added exactly when both the affected-count tier rule and the criticality
rule fired, the total score being the sum of the five independent rule
contributions. -/
theorem C3_cascade_amended :
    (∀ (t : TrendingIssue) (rest : List TrendingIssue) (r : Resolution),
        humanInterventionScore (t :: rest) r = humanInterventionScore [t] r) ∧
    (∀ (i : IssueSummary) (r : Resolution) (d : Decision) (n : Nat),
        r.kb_articles_used = .int n → shouldEscalate i r = .ok d →
        (("Multiple critical systems affected" ∈ d.reasons) ↔
            (50 < i.count ∧ isCriticalType i.issue_type = true)) ∧
        d.escalation_score =
          impactPts i.count + critPts i.issue_type + cascadePts i
            + remedyIntPts n + unknownPts r.resolution_text) := by
  constructor
  · intro t rest r
    rfl
  · intro i r d n hkb hok
    rw [shouldEscalate_int i r n hkb] at hok
    have hd : d = mkDecision i
        (impactPts i.count + critPts i.issue_type + cascadePts i + remedyIntPts n
          + unknownPts r.resolution_text)
        (impactReasons i.count ++ critReasons i.issue_type ++ cascadeReasons i
          ++ remedyIntReasons n ++ unknownReasons r.resolution_text) := by
      cases hok
      rfl
    subst hd
    rw [mkDecision_reasons, mkDecision_score]
    exact ⟨mcsa_mem_reasons i n r.resolution_text, rfl⟩

/-- Witness for the amended C3 at a concrete input: count 60 of a critical
category with three articles used — the cascade bonus fires with a single
trending category in sight. -/
theorem C3_cascade_amended_witness :
    (("Multiple critical systems affected" ∈
        (Decision.mk true 6 "urgent"
          ["Medium-high impact: >50 users affected", "Critical service affected: database",
            "Multiple critical systems affected"]
          "infrastructure_team" "15 minutes").reasons) ↔
      (50 < (IssueSummary.mk (some "database") 60).count ∧
        isCriticalType (IssueSummary.mk (some "database") 60).issue_type = true)) ∧
    (Decision.mk true 6 "urgent"
        ["Medium-high impact: >50 users affected", "Critical service affected: database",
          "Multiple critical systems affected"]
        "infrastructure_team" "15 minutes").escalation_score =
      impactPts (IssueSummary.mk (some "database") 60).count
        + critPts (IssueSummary.mk (some "database") 60).issue_type
        + cascadePts (IssueSummary.mk (some "database") 60)
        + remedyIntPts 3 + unknownPts rThree.resolution_text :=
  C3_cascade_amended.2 (IssueSummary.mk (some "database") 60) rThree
    (Decision.mk true 6 "urgent"
      ["Medium-high impact: >50 users affected", "Critical service affected: database",
        "Multiple critical systems affected"]
      "infrastructure_team" "15 minutes")
    3 (by decide) (by decide)

/-! ## C10 -/

/-- C10: the scorer contains an extra rule absent from the spec table —
whenever "unknown" occurs case-insensitively in the resolution text, the
score is exactly 3 higher than for the identical input without that
substring, the reason list gaining exactly "Unknown or novel issue
pattern"; and this can flip both `should_escalate` and the level. -/
theorem C10_unknown_rule :
    (∀ (i : IssueSummary) (r : Resolution) (t1 t2 : String) (d1 d2 : Decision),
        containsSub "unknown" t1 = true → containsSub "unknown" t2 = false →
        shouldEscalate i { r with resolution_text := t1 } = .ok d1 →
        shouldEscalate i { r with resolution_text := t2 } = .ok d2 →
        d1.escalation_score = d2.escalation_score + 3 ∧
        d1.reasons = d2.reasons ++ ["Unknown or novel issue pattern"]) ∧
    (∃ (i : IssueSummary) (r : Resolution) (t1 t2 : String) (d1 d2 : Decision),
        containsSub "unknown" t1 = true ∧ containsSub "unknown" t2 = false ∧
        shouldEscalate i { r with resolution_text := t1 } = .ok d1 ∧
        shouldEscalate i { r with resolution_text := t2 } = .ok d2 ∧
        d1.should_escalate ≠ d2.should_escalate ∧
        d1.escalation_level ≠ d2.escalation_level) := by
  constructor
  · intro i r t1 t2 d1 d2 h1 h2 hok1 hok2
    obtain ⟨n, hn⟩ := shouldEscalate_ok_int hok1
    have hn1 : ({ r with resolution_text := t1 } : Resolution).kb_articles_used = .int n := hn
    have hn2 : ({ r with resolution_text := t2 } : Resolution).kb_articles_used = .int n := hn
    rw [shouldEscalate_int _ _ n hn1] at hok1
    rw [shouldEscalate_int _ _ n hn2] at hok2
    have hd1 : d1 = mkDecision i
        (impactPts i.count + critPts i.issue_type + cascadePts i + remedyIntPts n
          + unknownPts t1)
        (impactReasons i.count ++ critReasons i.issue_type ++ cascadeReasons i
          ++ remedyIntReasons n ++ unknownReasons t1) := by
      cases hok1; rfl
    have hd2 : d2 = mkDecision i
        (impactPts i.count + critPts i.issue_type + cascadePts i + remedyIntPts n
          + unknownPts t2)
        (impactReasons i.count ++ critReasons i.issue_type ++ cascadeReasons i
          ++ remedyIntReasons n ++ unknownReasons t2) := by
      cases hok2; rfl
    subst hd1
    subst hd2
    rw [mkDecision_score, mkDecision_score, mkDecision_reasons, mkDecision_reasons]
    unfold unknownPts unknownReasons
    rw [if_pos h1, if_pos h1]
    rw [if_neg (by simp [h2]), if_neg (by simp [h2])]
    simp
  · refine ⟨⟨some "database", 10⟩, { kb_articles_used := .int 5 },
      "Root cause unknown at this time", "Root cause identified", ?_, ?_, ?_⟩
    · exact Decision.mk true 5 "high"
        ["Critical service affected: database", "Unknown or novel issue pattern"]
        "infrastructure_team" "30 minutes"
    · exact Decision.mk false 2 "normal"
        ["Critical service affected: database"]
        "infrastructure_team" "1 hour"
    · exact ⟨by decide, by decide, by decide, by decide, by decide, by decide⟩

/-- Witness for C10 at a concrete input: score 5 vs 2, high vs normal. -/
theorem C10_unknown_rule_witness :
    (Decision.mk true 5 "high"
        ["Critical service affected: database", "Unknown or novel issue pattern"]
        "infrastructure_team" "30 minutes").escalation_score =
      (Decision.mk false 2 "normal" ["Critical service affected: database"]
        "infrastructure_team" "1 hour").escalation_score + 3 ∧
    (Decision.mk true 5 "high"
        ["Critical service affected: database", "Unknown or novel issue pattern"]
        "infrastructure_team" "30 minutes").reasons =
      (Decision.mk false 2 "normal" ["Critical service affected: database"]
        "infrastructure_team" "1 hour").reasons ++ ["Unknown or novel issue pattern"] :=
  C10_unknown_rule.1 ⟨some "database", 10⟩ { kb_articles_used := .int 5 }
    "Root cause unknown at this time" "Root cause identified"
    (Decision.mk true 5 "high"
      ["Critical service affected: database", "Unknown or novel issue pattern"]
      "infrastructure_team" "30 minutes")
    (Decision.mk false 2 "normal" ["Critical service affected: database"]
      "infrastructure_team" "1 hour")
    (by decide) (by decide) (by decide) (by decide)

/-! ## Helper lemmas about the knowledge ranker -/

theorem mem_insertDesc {x z : RankedArticle} (l : List RankedArticle)
    (h : z ∈ insertDesc x l) : z = x ∨ z ∈ l := by
  induction l with
  | nil =>
      simp [insertDesc] at h
      exact Or.inl h
  | cons y ys ih =>
      rw [insertDesc] at h
      by_cases hc : y.relevance_score ≤ x.relevance_score
      · rw [if_pos hc] at h
        simp only [List.mem_cons] at h ⊢
        tauto
      · rw [if_neg hc] at h
        simp only [List.mem_cons] at h ⊢
        rcases h with h | h
        · tauto
        · rcases ih h with h2 | h2 <;> tauto

theorem pairwise_insertDesc (x : RankedArticle) (l : List RankedArticle)
    (hl : l.Pairwise rankOrder)
    (hx : ∀ y ∈ l, y.last_updated ≤ x.last_updated) :
    (insertDesc x l).Pairwise rankOrder := by
  induction l with
  | nil => simp [insertDesc, rankOrder]
  | cons y ys ih =>
      rw [insertDesc]
      rcases List.pairwise_cons.1 hl with ⟨hy, hys⟩
      by_cases hc : y.relevance_score ≤ x.relevance_score
      · rw [if_pos hc]
        refine List.pairwise_cons.2 ⟨?_, List.pairwise_cons.2 ⟨hy, hys⟩⟩
        intro z hz
        rcases List.mem_cons.1 hz with rfl | hz2
        · rcases Nat.lt_or_eq_of_le hc with h | h
          · exact Or.inl h
          · exact Or.inr ⟨h.symm, hx z (List.mem_cons_self _ _)⟩
        · have hzy := hy z hz2
          have hzs : z.relevance_score ≤ y.relevance_score := by
            rcases hzy with h | ⟨h, _⟩
            · exact Nat.le_of_lt h
            · exact Nat.le_of_eq h.symm
          rcases Nat.lt_or_ge z.relevance_score x.relevance_score with h | h
          · exact Or.inl h
          · exact Or.inr ⟨Nat.le_antisymm h (Nat.le_trans hzs hc),
              hx z (List.mem_cons_of_mem y hz2)⟩
      · rw [if_neg hc]
        have hxy : x.relevance_score < y.relevance_score := Nat.lt_of_not_le hc
        refine List.pairwise_cons.2
          ⟨?_, ih hys (fun z hz => hx z (List.mem_cons_of_mem y hz))⟩
        intro z hz
        rcases mem_insertDesc ys hz with rfl | hz2
        · exact Or.inl hxy
        · exact hy z hz2

theorem mem_sortDesc {z : RankedArticle} (l : List RankedArticle)
    (h : z ∈ sortDesc l) : z ∈ l := by
  induction l with
  | nil => simp [sortDesc] at h
  | cons x xs ih =>
      rw [sortDesc] at h
      rcases mem_insertDesc _ h with rfl | h2
      · exact List.mem_cons_self _ _
      · exact List.mem_cons_of_mem _ (ih h2)

theorem pairwise_sortDesc (l : List RankedArticle)
    (h : l.Pairwise (fun u v => v.last_updated ≤ u.last_updated)) :
    (sortDesc l).Pairwise rankOrder := by
  induction l with
  | nil => simp [sortDesc]
  | cons x xs ih =>
      rw [sortDesc]
      rcases List.pairwise_cons.1 h with ⟨hx, hxs⟩
      exact pairwise_insertDesc x _ (ih hxs)
        (fun y hy => hx y (mem_sortDesc xs hy))

/-- Every article in a search result carries the positive keyword score it
was ranked with. -/
theorem search_mem_pos {kws : List String} {entities : List Article}
    {a : RankedArticle} (h : a ∈ searchKnowledgeBase kws entities) :
    0 < a.relevance_score := by
  unfold searchKnowledgeBase at h
  have h2 := List.take_subset 5 _ h
  have h3 := mem_sortDesc _ h2
  rcases List.mem_filterMap.1 h3 with ⟨e, _, hfe⟩
  by_cases hs : 0 < keywordScore kws e.content
  · rw [if_pos hs] at hfe
    cases hfe
    exact hs
  · rw [if_neg hs] at hfe
    cases hfe

/-! ## C5 -/

/-- C5 counterexample: when no candidate scores positively the ranker
returns the empty list — there is no synthetic "standard resolution guide"
fallback article in `search_knowledge_base` or its pipeline caller (the
caller stores `kb_hits = None` instead). -/
theorem C5_no_fallback_counterexample :
    searchKnowledgeBase ["xyz"] [artNoMatch] = [] ∧
    ¬ (∃ a : RankedArticle, searchKnowledgeBase ["xyz"] [artNoMatch] = [a] ∧
        a.success_rate = 80) := by
  have h0 : searchKnowledgeBase ["xyz"] [artNoMatch] = [] := by decide
  refine ⟨h0, ?_⟩
  rintro ⟨a, ha, _⟩
  rw [h0] at ha
  cases ha

/-- C5 amended: the ranker never returns an article with zero relevance
score, but when no candidate scores positively the result is the EMPTY
list, and the knowledge-retrieval caller then records `kb_hits = None`
(no synthetic fallback article exists on this path). -/
theorem C5_amended :
    (∀ (kws : List String) (entities : List Article) (a : RankedArticle),
        a ∈ searchKnowledgeBase kws entities → 0 < a.relevance_score) ∧
    (∀ (kws : List String) (entities : List Article),
        (∀ e ∈ entities, keywordScore kws e.content = 0) →
        searchKnowledgeBase kws entities = []) ∧
    (∀ (analysis : String) (kws : List String), kbHitsOf [] analysis kws = none) := by
  refine ⟨fun kws entities a h => search_mem_pos h, ?_, fun analysis kws => rfl⟩
  intro kws entities h
  unfold searchKnowledgeBase
  have hfm : (entities.filterMap (fun e =>
      if 0 < keywordScore kws e.content then
        some ({ toArticle := e, relevance_score := keywordScore kws e.content } : RankedArticle)
      else none)) = [] := by
    apply List.filterMap_eq_nil_iff.2
    intro e he
    simp [h e he]
  rw [hfm]
  rfl

/-- Witness for C5 at a concrete input with a positive match. -/
theorem C5_amended_witness :
    0 < (RankedArticle.mk artNoMatch 1).relevance_score :=
  C5_amended.1 ["router"] [artNoMatch] (RankedArticle.mk artNoMatch 1) (by decide)

/-! ## C6 -/

/-- C6 counterexample: with an empty keyword set the ranker returns the
EMPTY list even though an active article exists — every article scores 0
and score-0 articles are dropped, so it does not degrade to the 5
most-recently-updated articles. -/
theorem C6_empty_keywords_counterexample :
    searchKnowledgeBase [] [artNoMatch] = [] ∧
    ([artNoMatch] : List Article) ≠ [] := by
  refine ⟨by decide, by decide⟩

/-- C6 amended: with an empty keyword set the ranker does not error but
always returns the empty list, whatever active articles exist. -/
theorem C6_empty_keywords_amended (entities : List Article) :
    searchKnowledgeBase [] entities = [] := by
  unfold searchKnowledgeBase
  have hfm : (entities.filterMap (fun e =>
      if 0 < keywordScore [] e.content then
        some ({ toArticle := e, relevance_score := keywordScore [] e.content } : RankedArticle)
      else none)) = [] := by
    apply List.filterMap_eq_nil_iff.2
    intro e he
    simp [keywordScore]
  rw [hfm]
  rfl

/-! ## C7 -/

/-- C7: on the entity list as returned by the Datastore query (ordered by
`last_updated` descending), the ranker yields at most 5 articles ordered
by relevance score descending with ties broken by `last_updated`
descending (Python's sort is stable). -/
theorem C7_rank_ordering (kws : List String) (entities : List Article)
    (h : entities.Pairwise (fun u v => v.last_updated ≤ u.last_updated)) :
    (searchKnowledgeBase kws entities).length ≤ 5 ∧
    (searchKnowledgeBase kws entities).Pairwise rankOrder := by
  unfold searchKnowledgeBase
  constructor
  · exact List.length_take_le 5 _
  · apply List.Pairwise.sublist (List.take_sublist 5 _)
    apply pairwise_sortDesc
    refine List.Pairwise.filterMap _ ?_ h
    intro a a' hr b hb b' hb'
    by_cases ha : 0 < keywordScore kws a.content
    · rw [if_pos ha] at hb
      by_cases ha' : 0 < keywordScore kws a'.content
      · rw [if_pos ha'] at hb'
        cases hb
        cases hb'
        exact hr
      · rw [if_neg ha'] at hb'
        cases hb'
    · rw [if_neg ha] at hb
      cases hb

/-- Witness for C7 on two concretely ordered articles. -/
theorem C7_rank_ordering_witness :
    (searchKnowledgeBase ["alpha", "beta"]
      [Article.mk "kb1" "A" "alpha beta gamma" 90 200,
       Article.mk "kb2" "B" "alpha delta" 80 100]).length ≤ 5 ∧
    (searchKnowledgeBase ["alpha", "beta"]
      [Article.mk "kb1" "A" "alpha beta gamma" 90 200,
       Article.mk "kb2" "B" "alpha delta" 80 100]).Pairwise rankOrder :=
  C7_rank_ordering ["alpha", "beta"]
    [Article.mk "kb1" "A" "alpha beta gamma" 90 200,
     Article.mk "kb2" "B" "alpha delta" 80 100]
    (by decide)

/-! ## C8 -/

theorem sum_natCast_list (l : List Nat) :
    ((l.map (fun n : Nat => (n : ℚ))).sum) = (l.sum : ℚ) :=
  (Nat.cast_list_sum l).symm

theorem dailyCount_eq_count (events : List HistEvent) (d : Nat) :
    dailyCount events d = (events.map (·.day)).count d := by
  unfold dailyCount
  rw [List.count_eq_countP, List.countP_map]
  rfl

/-- The per-day counts of the grouped days sum to the total number of
events (so the average over grouped days is total/number-of-active-days). -/
theorem sum_dailyCounts (events : List HistEvent) :
    ((distinctDays events).map (fun d => dailyCount events d)).sum = events.length := by
  unfold distinctDays
  calc ((events.map (·.day)).dedup.map (fun d => dailyCount events d)).sum
      = ((events.map (·.day)).dedup.map (fun d => (events.map (·.day)).count d)).sum := by
        simp [dailyCount_eq_count]
    _ = (events.map (·.day)).length := List.sum_map_count_dedup_eq_length _
    _ = events.length := List.length_map _ _

/-- C8 counterexample: with no historical rows the baseline fields are all
SQL NULL (Python `None`), not zero; and with ten events on a single day of
a 30-day window the code reports an average of 10 per day, not the
spec-mandated whole-window mean 10/30. -/
theorem C8_baseline_counterexample :
    (getHistoricalContext []).avg_daily_incidents ≠ some 0 ∧
    (getHistoricalContext []).max_daily_incidents ≠ some 0 ∧
    (getHistoricalContext []).typical_resolution_time ≠ some 0 ∧
    (getHistoricalContext ev10).avg_daily_incidents = some 10 ∧
    specAvgDaily 30 ev10 = 1 / 3 ∧
    ¬ (getHistoricalContext ev10).avg_daily_incidents = some (specAvgDaily 30 ev10) := by
  have h1 : distinctDays ev10 = [0] := by decide
  have h2 : dailyCount ev10 0 = 10 := by decide
  have hlen : ev10.length = 10 := by decide
  have havg : (getHistoricalContext ev10).avg_daily_incidents = some 10 := by
    unfold getHistoricalContext
    simp only [h1, h2, List.isEmpty_cons, List.map_cons, List.map_nil, List.sum_cons,
      List.sum_nil, List.length_cons, List.length_nil, if_false, Bool.false_eq_true]
    norm_num
  have hspec : specAvgDaily 30 ev10 = 1 / 3 := by
    unfold specAvgDaily
    rw [hlen]
    norm_num
  refine ⟨by decide, by decide, by decide, havg, hspec, ?_⟩
  rw [havg, hspec]
  intro hcontra
  have h10 : (10 : ℚ) = 1 / 3 := Option.some.inj hcontra
  norm_num at h10

/-- C8 amended: with no historical rows every baseline field is `None`
(SQL NULL), and for a nonempty history `avg_daily_incidents` is the mean
of the daily counts over the days that have at least one event — days
with zero events are omitted by the `GROUP BY`, so the average equals
total events divided by the number of ACTIVE days, not by the window
length. -/
theorem C8_baseline_amended :
    getHistoricalContext [] = ⟨none, none, none⟩ ∧
    (∀ events : List HistEvent, events ≠ [] →
      (getHistoricalContext events).avg_daily_incidents =
        some ((events.length : ℚ) / ((distinctDays events).length : ℚ))) := by
  constructor
  · rfl
  · intro events hne
    have hdays : (distinctDays events).isEmpty = false := by
      have hnn : distinctDays events ≠ [] := by
        intro hnil
        unfold distinctDays at hnil
        rw [List.dedup_eq_nil, List.map_eq_nil_iff] at hnil
        exact hne hnil
      simpa [List.isEmpty_iff] using hnn
    have hsum : ((distinctDays events).map (fun d => (dailyCount events d : ℚ))).sum
        = (events.length : ℚ) := by
      have hmm : (distinctDays events).map (fun d => (dailyCount events d : ℚ))
          = ((distinctDays events).map (fun d => dailyCount events d)).map
              (fun n : Nat => (n : ℚ)) := by
        rw [List.map_map]
        rfl
      rw [hmm, sum_natCast_list, sum_dailyCounts]
    unfold getHistoricalContext
    simp only [hdays, Bool.false_eq_true, if_false, hsum]

/-- Witness for the amended C8 on the concrete one-day history. -/
theorem C8_baseline_amended_witness :
    (getHistoricalContext ev10).avg_daily_incidents =
      some ((ev10.length : ℚ) / ((distinctDays ev10).length : ℚ)) :=
  C8_baseline_amended.2 ev10 (by decide)

/-! ## C9 -/

/-- C9: the consistency checker is a frame-preserving amendment — with no
prior resolutions it returns the new resolution unchanged, and in every
case (amended or not) the output's `issue_type` (category),
`generated_at`, and `kb_articles_used` equal the input's. -/
theorem C9_consistency_frame :
    (∀ (r : Resolution) (analysisText updateText : String),
        checkConsistency r [] analysisText updateText = r) ∧
    (∀ (r : Resolution) (past : List PastResponse) (analysisText updateText : String),
        (checkConsistency r past analysisText updateText).issue_type = r.issue_type ∧
        (checkConsistency r past analysisText updateText).generated_at = r.generated_at ∧
        (checkConsistency r past analysisText updateText).kb_articles_used =
          r.kb_articles_used) := by
  constructor
  · intro r a u
    simp [checkConsistency]
  · intro r past a u
    unfold checkConsistency
    by_cases h1 : past.isEmpty
    · simp [h1]
    · by_cases h2 : containsSub "suggested changes" a
      · by_cases h3 : 5 ≤ (splitSections u).length
        · simp [h1, h2, h3]
        · simp [h1, h2, h3]
      · simp [h1, h2]
